import Mathlib

/-!
Shallow embedding of the fingerprint HAL interface contract declared in
fingerprint/include/fingerprint.h: the message-type, error and acquired-info
enumerations, the fingerprint_device_t command table and the
fingerprint_module_t wrapper, together with an operational model of the
behavioural contract the header documents for a conforming driver.
-/

namespace Fingerprint

/-- Value of FINGERPRINT_ERROR in fingerprint_msg_type_t. -/
def FINGERPRINT_ERROR : Int := -1

/-- Value of FINGERPRINT_ACQUIRED in fingerprint_msg_type_t. -/
def FINGERPRINT_ACQUIRED : Int := 1

/-- Value of FINGERPRINT_TEMPLATE_ENROLLING in fingerprint_msg_type_t. -/
def FINGERPRINT_TEMPLATE_ENROLLING : Int := 3

/-- Value of FINGERPRINT_TEMPLATE_REMOVED in fingerprint_msg_type_t. -/
def FINGERPRINT_TEMPLATE_REMOVED : Int := 4

/-- Value of FINGERPRINT_AUTHENTICATED in fingerprint_msg_type_t. -/
def FINGERPRINT_AUTHENTICATED : Int := 5

/-- Value of FINGERPRINT_TEMPLATE_ENUMERATING in fingerprint_msg_type_t. -/
def FINGERPRINT_TEMPLATE_ENUMERATING : Int := 6

/-- Value of FINGERPRINT_CHALLENGE_GENERATED in fingerprint_msg_type_t. -/
def FINGERPRINT_CHALLENGE_GENERATED : Int := 7

/-- Value of FINGERPRINT_CHALLENGE_REVOKED in fingerprint_msg_type_t. -/
def FINGERPRINT_CHALLENGE_REVOKED : Int := 8

/-- Value of FINGERPRINT_AUTHENTICATOR_ID_RETRIEVED in fingerprint_msg_type_t. -/
def FINGERPRINT_AUTHENTICATOR_ID_RETRIEVED : Int := 9

/-- Value of FINGERPRINT_AUTHENTICATOR_ID_INVALIDATED in fingerprint_msg_type_t. -/
def FINGERPRINT_AUTHENTICATOR_ID_INVALIDATED : Int := 10

/-- Value of FINGERPRINT_RESET_LOCKOUT in fingerprint_msg_type_t. -/
def FINGERPRINT_RESET_LOCKOUT : Int := 11

/-- Value of FINGERPRINT_ERROR_CANCELED in fingerprint_error_t. -/
def FINGERPRINT_ERROR_CANCELED : Nat := 5

/-- Value of FINGERPRINT_ACQUIRED_GOOD in fingerprint_acquired_info_t. -/
def FINGERPRINT_ACQUIRED_GOOD : Nat := 0

/-- Value of FINGERPRINT_ACQUIRED_INSUFFICIENT in fingerprint_acquired_info_t. -/
def FINGERPRINT_ACQUIRED_INSUFFICIENT : Nat := 2

/-- C return type of a member of the fingerprint_device_t command table. -/
inductive CRet
  | cInt
  | cUInt64
  | cVoid
deriving DecidableEq

/-- Classification of a command-table member, read off the header comments:
the two pointer-gesture hooks carry an explicit deprecation tag, extCmd is
documented as the Xiaomi vendor extension, everything else is required. -/
inductive OpKind
  | required
  | deprecatedHook
  | vendorExt
deriving DecidableEq

/-- What the `Function return:` part of an operation's doc comment states:
`zeroOrNegErrno` for "0 ... or a negative number in case of error, generally
from the errno.h set", `valueOrZeroOnFailure` for "current authenticator id or
0 if function failed", `undocumented` when the comment has no return clause. -/
inductive RetDoc
  | zeroOrNegErrno
  | valueOrZeroOnFailure
  | undocumented
deriving DecidableEq

/-- One function pointer of the fingerprint_device_t command table. -/
structure FpOp where
  name : String
  ret : CRet
  kind : OpKind
  docRet : RetDoc
deriving DecidableEq

/-- The fingerprint_device_t command table, in declaration order, starting
right after the `notify` callback data member (which is not an operation):
each entry records the member's name, C return type, classification and the
documented return convention, all read off the header. -/
def fingerprint_device_ops : List FpOp :=
  [{ name := "set_notify", ret := CRet.cInt, kind := OpKind.required,
     docRet := RetDoc.zeroOrNegErrno },
   { name := "generate_challenge", ret := CRet.cUInt64, kind := OpKind.required,
     docRet := RetDoc.undocumented },
   { name := "revoke_challenge", ret := CRet.cInt, kind := OpKind.required,
     docRet := RetDoc.undocumented },
   { name := "enroll", ret := CRet.cInt, kind := OpKind.required,
     docRet := RetDoc.zeroOrNegErrno },
   { name := "get_authenticator_id", ret := CRet.cUInt64, kind := OpKind.required,
     docRet := RetDoc.valueOrZeroOnFailure },
   { name := "invalidate_authenticator_id", ret := CRet.cUInt64, kind := OpKind.required,
     docRet := RetDoc.undocumented },
   { name := "cancel", ret := CRet.cInt, kind := OpKind.required,
     docRet := RetDoc.zeroOrNegErrno },
   { name := "enumerate", ret := CRet.cInt, kind := OpKind.required,
     docRet := RetDoc.zeroOrNegErrno },
   { name := "remove", ret := CRet.cInt, kind := OpKind.required,
     docRet := RetDoc.undocumented },
   { name := "set_active_group", ret := CRet.cInt, kind := OpKind.required,
     docRet := RetDoc.zeroOrNegErrno },
   { name := "authenticate", ret := CRet.cInt, kind := OpKind.required,
     docRet := RetDoc.zeroOrNegErrno },
   { name := "reset_lockout", ret := CRet.cInt, kind := OpKind.required,
     docRet := RetDoc.undocumented },
   { name := "onPointerDown", ret := CRet.cVoid, kind := OpKind.deprecatedHook,
     docRet := RetDoc.undocumented },
   { name := "onPointerUp", ret := CRet.cVoid, kind := OpKind.deprecatedHook,
     docRet := RetDoc.undocumented },
   { name := "extCmd", ret := CRet.cInt, kind := OpKind.vendorExt,
     docRet := RetDoc.undocumented }]

/-- Type of a data member of one of the two structs, for the layout facts. -/
inductive CFieldTy
  | hwDevice
  | hwModule
  | notifyPtr
  | fnPtr (ret : CRet)
  | voidPtrArr (n : Nat)
deriving DecidableEq

/-- The members of struct fingerprint_device, in declaration order: the
hw_device_t common header, the notify callback pointer, the fifteen function
pointers of the command table, and the reserved void pointer array. -/
def fingerprint_device_fields : List (String × CFieldTy) :=
  ("common", CFieldTy.hwDevice) ::
    ("notify", CFieldTy.notifyPtr) ::
      (fingerprint_device_ops.map (fun o => (o.name, CFieldTy.fnPtr o.ret)) ++
        [("reserved", CFieldTy.voidPtrArr 4)])

/-- The members of struct fingerprint_module, in declaration order: just the
hw_module_t common header. -/
def fingerprint_module_fields : List (String × CFieldTy) :=
  [("common", CFieldTy.hwModule)]

/-- Return encoding of get_authenticator_id, from its header comment
"Function return: current authenticator id or 0 if function failed": a failed
call is reported as the in-band value 0 of the uint64_t return. -/
def gaReturn : Option Nat → Nat
  | none => 0
  | some v => v

/-- Claim C1 counterexample: counting every function pointer of the command
table after the notify callback and the set_notify registration, the required
portion does not number nine (it numbers eleven). -/
theorem claim1_counterexample :
    ¬ (((fingerprint_device_ops.drop 1).filter
        (fun o => decide (o.kind = OpKind.required))).length = 9) := by
  decide

/-- Claim C1 (amended): after the notify callback and the set_notify
registration, the command table holds eleven required operations, two
deprecated pointer-gesture hooks and one vendor extension hook (fourteen
function pointers in all; fifteen counting set_notify itself). -/
theorem claim1_table_counts :
    ((fingerprint_device_ops.drop 1).filter
      (fun o => decide (o.kind = OpKind.required))).length = 11 ∧
    ((fingerprint_device_ops.drop 1).filter
      (fun o => decide (o.kind = OpKind.deprecatedHook))).length = 2 ∧
    ((fingerprint_device_ops.drop 1).filter
      (fun o => decide (o.kind = OpKind.vendorExt))).length = 1 ∧
    (fingerprint_device_ops.drop 1).length = 14 ∧
    fingerprint_device_ops.length = 15 := by
  decide

/-- Claim C7 counterexample: not every operation of the command table can
follow the zero-accepted / negative-errno return convention, because not every
operation returns int: generate_challenge (like get_authenticator_id and
invalidate_authenticator_id) returns uint64_t, which has no negative values,
and the two pointer hooks return void. -/
theorem claim7_counterexample :
    (fingerprint_device_ops.filter
      (fun o => decide (o.name = "generate_challenge"))).map FpOp.ret =
      [CRet.cUInt64] ∧
    ¬ (∀ op ∈ fingerprint_device_ops, op.ret = CRet.cInt) := by
  decide

/-- Claim C7 (amended): every operation of the command table whose comment
documents the zero-accepted / negative-errno return convention returns int;
the operations that do not return int are exactly generate_challenge,
get_authenticator_id, invalidate_authenticator_id (uint64_t) and the two
deprecated pointer hooks (void), and of these only get_authenticator_id
documents a return contract, the in-band 0-on-failure one. -/
theorem claim7_return_convention :
    ∀ op ∈ fingerprint_device_ops,
      (op.docRet = RetDoc.zeroOrNegErrno → op.ret = CRet.cInt) ∧
      (op.ret ≠ CRet.cInt →
        op.docRet = RetDoc.undocumented ∨
          (op.name = "get_authenticator_id" ∧
            op.docRet = RetDoc.valueOrZeroOnFailure)) := by
  decide

/-- Witness for claim C7's amended theorem at the set_notify entry. -/
theorem claim7_return_convention_witness :
    ({ name := "set_notify", ret := CRet.cInt, kind := OpKind.required,
       docRet := RetDoc.zeroOrNegErrno } : FpOp) ∈ fingerprint_device_ops ∧
    (({ name := "set_notify", ret := CRet.cInt, kind := OpKind.required,
        docRet := RetDoc.zeroOrNegErrno } : FpOp).docRet =
          RetDoc.zeroOrNegErrno →
      ({ name := "set_notify", ret := CRet.cInt, kind := OpKind.required,
         docRet := RetDoc.zeroOrNegErrno } : FpOp).ret = CRet.cInt) :=
  ⟨by decide,
   (claim7_return_convention
     { name := "set_notify", ret := CRet.cInt, kind := OpKind.required,
       docRet := RetDoc.zeroOrNegErrno } (by decide)).1⟩

/-- Claim C8: in both fingerprint_device_t and fingerprint_module_t the
generic common header (hw_device_t resp. hw_module_t) is the first declared
member, the structural fact that lets a pointer to the generic base type be
reinterpreted as a pointer to the specific type (a first member sits at
offset zero in every instance of a C struct). -/
theorem claim8_common_first_member :
    fingerprint_device_fields.head? = some ("common", CFieldTy.hwDevice) ∧
    fingerprint_module_fields.head? = some ("common", CFieldTy.hwModule) := by
  decide

/-- Claim C10: get_authenticator_id returns uint64_t and its documented
contract is "current authenticator id or 0 if function failed", so failure is
the in-band sentinel 0 of the return encoding: an authenticator id equal to 0
is indistinguishable from failure at the interface. -/
theorem claim10_zero_failure_sentinel :
    (fingerprint_device_ops.filter
      (fun o => decide (o.name = "get_authenticator_id"))) =
      [{ name := "get_authenticator_id", ret := CRet.cUInt64,
         kind := OpKind.required, docRet := RetDoc.valueOrZeroOnFailure }] ∧
    gaReturn none = 0 ∧
    gaReturn (some 0) = gaReturn none := by
  decide

/-- Modelled from the spec: the externally observed phase of the driver state
machine — idle, enrolling (with the pending template id and the number of
scans still needed), or authenticating an operation id. -/
inductive Phase
  | idle
  | enrolling (fid : Nat) (remaining : Nat)
  | authenticating (opId : Nat)
deriving DecidableEq

/-- Modelled from the spec: the configured security class of the sensor;
invalidate_authenticator_id only applies to SensorStrength STRONG sensors. -/
inductive Strength
  | strong
  | weak
  | convenience
deriving DecidableEq

/-- One asynchronous notification delivered through the registered callback,
one constructor per payload the claims mention (fingerprint_msg_t). -/
inductive Notif
  | enrolling (fid : Nat) (samplesRemaining : Nat)
  | templateRemoved (fid : Nat) (remaining : Nat)
  | enumerated (fid : Nat) (remaining : Nat)
  | challengeGenerated (v : Nat)
  | challengeRevoked (v : Nat)
  | authIdInvalidated (newId : Nat)
  | error (e : Nat)
  | acquired (info : Nat)
deriving DecidableEq

/-- The fingerprint_msg_type_t discriminant a notification is delivered
under, tying the model's notifications to the header's enumeration. -/
def msgType : Notif → Int
  | Notif.enrolling _ _ => FINGERPRINT_TEMPLATE_ENROLLING
  | Notif.templateRemoved _ _ => FINGERPRINT_TEMPLATE_REMOVED
  | Notif.enumerated _ _ => FINGERPRINT_TEMPLATE_ENUMERATING
  | Notif.challengeGenerated _ => FINGERPRINT_CHALLENGE_GENERATED
  | Notif.challengeRevoked _ => FINGERPRINT_CHALLENGE_REVOKED
  | Notif.authIdInvalidated _ => FINGERPRINT_AUTHENTICATOR_ID_INVALIDATED
  | Notif.error _ => FINGERPRINT_ERROR
  | Notif.acquired _ => FINGERPRINT_ACQUIRED

/-- Modelled from the spec: the observable driver state — the phase of the
state machine, the enrolled template set of the active group (ids in
enrollment order), the outstanding challenges, the authenticator id (rotated
whenever the template set changes), a counter for fresh challenge values, and
the configured sensor strength. -/
structure HalState where
  phase : Phase
  templates : List Nat
  challenges : List Nat
  authIdCtr : Nat
  nextChallenge : Nat
  strength : Strength
deriving DecidableEq

/-- Modelled from the spec: enroll switches an idle state machine into the
enrolling phase with a driver-chosen pending template id and a driver-chosen
number n of scans still needed (at least one); otherwise it is rejected. -/
def enroll (s : HalState) (fid n : Nat) : HalState × List Notif :=
  match s.phase, n with
  | Phase.idle, Nat.succ m =>
      ({ s with phase := Phase.enrolling fid (Nat.succ m) }, [])
  | _, _ => (s, [])

/-- Modelled from the spec: outcome of one scan event during enrollment —
either a usable image or one the driver asks to retry. -/
inductive Scan
  | good
  | noisy
deriving DecidableEq

/-- Modelled from the spec: one scan event while enrolling. A noisy scan
emits acquisition feedback and leaves the counter alone; a good scan counts
down samples_remaining by one and emits a FINGERPRINT_TEMPLATE_ENROLLING
progress notification with the new value; when that value reaches 0 the
template is stored, the authenticator id rotates, and the state machine
returns to idle. Outside the enrolling phase a scan is ignored. -/
def scanStep (s : HalState) (r : Scan) : HalState × List Notif :=
  match s.phase with
  | Phase.enrolling fid m =>
      match r with
      | Scan.noisy => (s, [Notif.acquired FINGERPRINT_ACQUIRED_INSUFFICIENT])
      | Scan.good =>
          match m with
          | 0 => (s, [])
          | 1 =>
              ({ s with phase := Phase.idle,
                        templates := s.templates ++ [fid],
                        authIdCtr := s.authIdCtr + 1 },
               [Notif.enrolling fid 0])
          | Nat.succ (Nat.succ j) =>
              ({ s with phase := Phase.enrolling fid (Nat.succ j) },
               [Notif.enrolling fid (Nat.succ j)])
  | _ => (s, [])

/-- Modelled from the spec: cancel aborts a pending enroll or authenticate,
emitting FINGERPRINT_ERROR_CANCELED and switching the state machine back to
idle; it leaves templates, challenges and the authenticator id alone. -/
def cancel (s : HalState) : HalState × List Notif :=
  match s.phase with
  | Phase.idle => (s, [])
  | _ => ({ s with phase := Phase.idle },
          [Notif.error FINGERPRINT_ERROR_CANCELED])

/-- Countdown discipline shared by enumerate and remove: one notification per
template, the payload carrying the template id and how many more
notifications follow, so the last one carries 0. -/
def countdownMsgs (mk : Nat → Nat → Notif) : List Nat → List Notif
  | [] => []
  | f :: rest => mk f rest.length :: countdownMsgs mk rest

/-- Modelled from the spec: enumerate walks the templates of the active
group with the countdown discipline; with zero templates it still emits
exactly one notification carrying the sentinel (id 0, remaining 0). -/
def enumerate (s : HalState) : HalState × List Notif :=
  match s.templates with
  | [] => (s, [Notif.enumerated 0 0])
  | ts => (s, countdownMsgs Notif.enumerated ts)

/-- Modelled from the spec: remove drops the listed template ids from the
active group, emits one removal notification per removed template with the
countdown discipline, and rotates the authenticator id when the template set
actually changed; with zero templates it still emits exactly one notification
carrying the sentinel (id 0, remaining 0). -/
def remove (s : HalState) (fids : List Nat) : HalState × List Notif :=
  match s.templates with
  | [] => (s, [Notif.templateRemoved 0 0])
  | ts =>
      let kept := ts.filter (fun f => decide (f ∉ fids))
      let removed := ts.filter (fun f => decide (f ∈ fids))
      ({ s with templates := kept,
                authIdCtr := if kept = ts then s.authIdCtr else s.authIdCtr + 1 },
       countdownMsgs Notif.templateRemoved removed)

/-- Modelled from the spec: generate_challenge issues a fresh opaque value,
records it as outstanding and notifies FINGERPRINT_CHALLENGE_GENERATED. -/
def generate_challenge (s : HalState) : HalState × List Notif :=
  ({ s with challenges := s.challenges ++ [s.nextChallenge],
            nextChallenge := s.nextChallenge + 1 },
   [Notif.challengeGenerated s.nextChallenge])

/-- Modelled from the spec: revoke_challenge drops the value from the
outstanding challenges and always notifies FINGERPRINT_CHALLENGE_REVOKED,
also when the value was never issued. -/
def revoke_challenge (s : HalState) (v : Nat) : HalState × List Notif :=
  ({ s with challenges := s.challenges.filter (fun c => decide (c ≠ v)) },
   [Notif.challengeRevoked v])

/-- Modelled from the spec: invalidate_authenticator_id rotates the
authenticator id on a STRONG sensor; on any other strength it immediately
notifies FINGERPRINT_AUTHENTICATOR_ID_INVALIDATED without touching state. -/
def invalidate_authenticator_id (s : HalState) : HalState × List Notif :=
  match s.strength with
  | Strength.strong =>
      ({ s with authIdCtr := s.authIdCtr + 1 },
       [Notif.authIdInvalidated (s.authIdCtr + 1)])
  | _ => (s, [Notif.authIdInvalidated s.authIdCtr])

/-- Modelled from the spec: get_authenticator_id reads the token associated
with the current template set. -/
def get_authenticator_id (s : HalState) : Nat :=
  s.authIdCtr

/-- Modelled from the spec: authenticate switches an idle state machine into
the authenticating phase for the given operation id. -/
def authenticate (s : HalState) (opId : Nat) : HalState × List Notif :=
  match s.phase with
  | Phase.idle => ({ s with phase := Phase.authenticating opId }, [])
  | _ => (s, [])

/-- A command issued to the device (or, for scan, a sensor event the driver
processes), covering the operations the claims quantify over. -/
inductive Cmd
  | enroll (fid n : Nat)
  | scan (r : Scan)
  | cancel
  | enumerate
  | remove (fids : List Nat)
  | generateChallenge
  | revokeChallenge (v : Nat)
  | invalidate
  | authenticate (opId : Nat)
deriving DecidableEq

/-- One step of the device: dispatch a command to its model operation. -/
def step (s : HalState) : Cmd → HalState × List Notif
  | Cmd.enroll fid n => enroll s fid n
  | Cmd.scan r => scanStep s r
  | Cmd.cancel => cancel s
  | Cmd.enumerate => enumerate s
  | Cmd.remove fids => remove s fids
  | Cmd.generateChallenge => generate_challenge s
  | Cmd.revokeChallenge v => revoke_challenge s v
  | Cmd.invalidate => invalidate_authenticator_id s
  | Cmd.authenticate opId => authenticate s opId

/-- Run a command sequence, accumulating the notification trace. -/
def runCmds (s : HalState) : List Cmd → HalState × List Notif
  | [] => (s, [])
  | c :: cs =>
      let p := step s c
      let q := runCmds p.1 cs
      (q.1, p.2 ++ q.2)

/-- Run a sequence of scan events, accumulating the notification trace. -/
def runScans (s : HalState) : List Scan → HalState × List Notif
  | [] => (s, [])
  | r :: rs =>
      let p := scanStep s r
      let q := runScans p.1 rs
      (q.1, p.2 ++ q.2)

/-- The samples_remaining values of the FINGERPRINT_TEMPLATE_ENROLLING
progress notifications of a trace, in order. -/
def enrollSamples (tr : List Notif) : List Nat :=
  tr.filterMap (fun x => match x with
    | Notif.enrolling _ k => some k
    | _ => none)

/-- Claim C3: enumerate and remove, called while the active group holds zero
templates, each emit exactly one notification whose payload carries finger
id 0 and remaining count 0 — never zero notifications. -/
theorem claim3_empty_sentinel (s : HalState) (fids : List Nat)
    (h : s.templates = []) :
    (enumerate s).2 = [Notif.enumerated 0 0] ∧
    (remove s fids).2 = [Notif.templateRemoved 0 0] := by
  constructor
  · simp only [enumerate, h]
  · simp only [remove, h]

/-- Witness for claim C3 at a concrete empty-group state. -/
theorem claim3_empty_sentinel_witness :
    (HalState.mk Phase.idle [] [] 0 0 Strength.strong).templates = [] ∧
    ((enumerate (HalState.mk Phase.idle [] [] 0 0 Strength.strong)).2 =
        [Notif.enumerated 0 0] ∧
      (remove (HalState.mk Phase.idle [] [] 0 0 Strength.strong) [1, 2]).2 =
        [Notif.templateRemoved 0 0]) :=
  ⟨rfl, claim3_empty_sentinel (HalState.mk Phase.idle [] [] 0 0 Strength.strong)
    [1, 2] rfl⟩

/-- Claim C4: revoke_challenge always emits the FINGERPRINT_CHALLENGE_REVOKED
notification for the value it was passed — in every state and for every
value, issued or not, so revocation never fails silently and is idempotent
under unknown input. -/
theorem claim4_revoke_always_notifies :
    ∀ (s : HalState) (v : Nat),
      (revoke_challenge s v).2 = [Notif.challengeRevoked v] ∧
      msgType (Notif.challengeRevoked v) = FINGERPRINT_CHALLENGE_REVOKED ∧
      (revoke_challenge s v).1.challenges =
        s.challenges.filter (fun c => decide (c ≠ v)) := by
  intro s v
  exact ⟨rfl, rfl, rfl⟩

/-- Claim C5: invalidate_authenticator_id on a sensor not configured as
STRONG immediately emits the FINGERPRINT_AUTHENTICATOR_ID_INVALIDATED
notification and returns the state unchanged, so the authenticator id and
every other observable component of the device state stay as they were. -/
theorem claim5_nonstrong_invalidate_noop (s : HalState)
    (h : s.strength ≠ Strength.strong) :
    invalidate_authenticator_id s = (s, [Notif.authIdInvalidated s.authIdCtr]) ∧
    (invalidate_authenticator_id s).1.authIdCtr = s.authIdCtr ∧
    msgType (Notif.authIdInvalidated s.authIdCtr) =
      FINGERPRINT_AUTHENTICATOR_ID_INVALIDATED := by
  cases hs : s.strength with
  | strong => exact absurd hs h
  | weak => exact ⟨by simp only [invalidate_authenticator_id, hs], by
      simp only [invalidate_authenticator_id, hs], rfl⟩
  | convenience => exact ⟨by simp only [invalidate_authenticator_id, hs], by
      simp only [invalidate_authenticator_id, hs], rfl⟩

/-- Witness for claim C5 at a concrete weak-strength state. -/
theorem claim5_nonstrong_invalidate_noop_witness :
    (HalState.mk Phase.idle [3] [] 7 0 Strength.weak).strength ≠
      Strength.strong ∧
    (invalidate_authenticator_id (HalState.mk Phase.idle [3] [] 7 0 Strength.weak) =
        (HalState.mk Phase.idle [3] [] 7 0 Strength.weak,
          [Notif.authIdInvalidated 7]) ∧
      (invalidate_authenticator_id
          (HalState.mk Phase.idle [3] [] 7 0 Strength.weak)).1.authIdCtr = 7 ∧
      msgType (Notif.authIdInvalidated 7) =
        FINGERPRINT_AUTHENTICATOR_ID_INVALIDATED) :=
  ⟨by decide, claim5_nonstrong_invalidate_noop
    (HalState.mk Phase.idle [3] [] 7 0 Strength.weak) (by decide)⟩

/-- Equation for running one scan then the rest. -/
theorem runScans_cons (s : HalState) (r : Scan) (rs : List Scan) :
    runScans s (r :: rs) =
      ((runScans (scanStep s r).1 rs).1,
        (scanStep s r).2 ++ (runScans (scanStep s r).1 rs).2) := rfl

/-- enrollSamples distributes over trace concatenation. -/
theorem enrollSamples_append (a b : List Notif) :
    enrollSamples (a ++ b) = enrollSamples a ++ enrollSamples b := by
  simp [enrollSamples]

/-- Acquisition feedback contributes no progress value. -/
theorem enrollSamples_acquired (i : Nat) (l : List Notif) :
    enrollSamples (Notif.acquired i :: l) = enrollSamples l := rfl

/-- A progress notification contributes its samples_remaining value. -/
theorem enrollSamples_enrolling (fid k : Nat) (l : List Notif) :
    enrollSamples (Notif.enrolling fid k :: l) = k :: enrollSamples l := rfl

/-- From the idle phase, scan events change nothing and emit nothing. -/
theorem runScans_idle (rs : List Scan) (s : HalState)
    (h : s.phase = Phase.idle) :
    runScans s rs = (s, []) := by
  induction rs with
  | nil => rfl
  | cons r rs ih =>
      have hstep : scanStep s r = (s, []) := by
        cases r <;> simp only [scanStep, h]
      rw [runScans_cons, hstep]
      simp only [ih, List.nil_append]

/-- Invariant of the enrolling phase: starting with m scans still needed, the
emitted samples_remaining values form a chain strictly below m in which each
value is strictly smaller than the one before, and whenever the run ends idle
the last emitted value is 0. -/
theorem runScans_enrolling_chain (rs : List Scan) :
    ∀ (s : HalState) (fid m : Nat), s.phase = Phase.enrolling fid m →
      List.Chain (fun a b => b < a) m (enrollSamples (runScans s rs).2) ∧
      ((runScans s rs).1.phase = Phase.idle →
        (enrollSamples (runScans s rs).2).getLast? = some 0) := by
  induction rs with
  | nil =>
      intro s fid m h
      refine ⟨List.Chain.nil, fun hidle => ?_⟩
      rw [show runScans s [] = (s, []) from rfl] at hidle
      rw [h] at hidle
      exact absurd hidle (by simp)
  | cons r rs ih =>
      intro s fid m h
      cases r with
      | noisy =>
          have hstep : scanStep s Scan.noisy =
              (s, [Notif.acquired FINGERPRINT_ACQUIRED_INSUFFICIENT]) := by
            simp only [scanStep, h]
          obtain ⟨hc, hl⟩ := ih s fid m h
          rw [runScans_cons, hstep]
          simp only [List.cons_append, List.nil_append, enrollSamples_acquired]
          exact ⟨hc, hl⟩
      | good =>
          cases m with
          | zero =>
              have hstep : scanStep s Scan.good = (s, []) := by
                simp only [scanStep, h]
              obtain ⟨hc, hl⟩ := ih s fid 0 h
              rw [runScans_cons, hstep]
              simp only [List.nil_append]
              exact ⟨hc, hl⟩
          | succ k =>
              cases k with
              | zero =>
                  have hstep : scanStep s Scan.good =
                      ({ s with phase := Phase.idle,
                                templates := s.templates ++ [fid],
                                authIdCtr := s.authIdCtr + 1 },
                       [Notif.enrolling fid 0]) := by
                    simp only [scanStep, h]
                  have hrest : runScans
                      ({ s with phase := Phase.idle,
                                templates := s.templates ++ [fid],
                                authIdCtr := s.authIdCtr + 1 }) rs =
                      ({ s with phase := Phase.idle,
                                templates := s.templates ++ [fid],
                                authIdCtr := s.authIdCtr + 1 }, []) :=
                    runScans_idle rs _ rfl
                  rw [runScans_cons, hstep]
                  simp only [hrest, List.cons_append, List.nil_append,
                    List.append_nil, enrollSamples_enrolling]
                  refine ⟨List.Chain.cons (Nat.zero_lt_one) ?_, fun _ => rfl⟩
                  exact (show enrollSamples [] = [] from rfl) ▸ List.Chain.nil
              | succ j =>
                  have hstep : scanStep s Scan.good =
                      ({ s with phase := Phase.enrolling fid (j + 1) },
                       [Notif.enrolling fid (j + 1)]) := by
                    simp only [scanStep, h]
                  obtain ⟨hc, hl⟩ :=
                    ih ({ s with phase := Phase.enrolling fid (j + 1) }) fid
                      (j + 1) rfl
                  rw [runScans_cons, hstep]
                  simp only [List.cons_append, List.nil_append,
                    enrollSamples_enrolling]
                  refine ⟨List.Chain.cons (Nat.lt_succ_self (j + 1)) hc,
                    fun hidle => ?_⟩
                  have hl0 := hl hidle
                  cases hvals : enrollSamples
                      (runScans ({ s with phase := Phase.enrolling fid (j + 1) })
                        rs).2 with
                  | nil => rw [hvals] at hl0; exact absurd hl0 (by simp)
                  | cons c l =>
                      rw [hvals] at hl0
                      rw [List.getLast?_cons_cons]
                      exact hl0

/-- Claim C2: for every enrollment sequence started by enroll from an idle
state, the samples_remaining values of the successive
FINGERPRINT_TEMPLATE_ENROLLING progress notifications are non-increasing, and
whenever the run ends with the device out of the enrolling state (back to
idle, the successful case), the final progress notification carried
samples_remaining 0. -/
theorem claim2_enroll_progress (s : HalState) (fid n : Nat) (rs : List Scan)
    (hidle : s.phase = Phase.idle) (hn : 1 ≤ n) :
    List.Chain' (fun a b => b ≤ a)
      (enrollSamples (runScans (enroll s fid n).1 rs).2) ∧
    ((runScans (enroll s fid n).1 rs).1.phase = Phase.idle →
      (enrollSamples (runScans (enroll s fid n).1 rs).2).getLast? =
        some 0) := by
  obtain ⟨m, rfl⟩ : ∃ m, n = m + 1 := ⟨n - 1, by omega⟩
  have hph : (enroll s fid (m + 1)).1.phase = Phase.enrolling fid (m + 1) := by
    simp only [enroll, hidle]
  obtain ⟨hc, hl⟩ :=
    runScans_enrolling_chain rs (enroll s fid (m + 1)).1 fid (m + 1) hph
  refine ⟨?_, hl⟩
  have h1 : List.Chain' (fun a b => b < a)
      ((m + 1) :: enrollSamples (runScans (enroll s fid (m + 1)).1 rs).2) := hc
  exact h1.tail.imp (fun a b hab => Nat.le_of_lt hab)

/-- Witness for claim C2: a concrete two-sample enrollment with a noisy scan
in the middle, run to completion. -/
theorem claim2_enroll_progress_witness :
    (HalState.mk Phase.idle [] [] 0 0 Strength.strong).phase = Phase.idle ∧
    1 ≤ 2 ∧
    (List.Chain' (fun a b => b ≤ a)
      (enrollSamples
        (runScans (enroll (HalState.mk Phase.idle [] [] 0 0 Strength.strong)
          7 2).1 [Scan.good, Scan.noisy, Scan.good]).2) ∧
    ((runScans (enroll (HalState.mk Phase.idle [] [] 0 0 Strength.strong)
        7 2).1 [Scan.good, Scan.noisy, Scan.good]).1.phase = Phase.idle →
      (enrollSamples
        (runScans (enroll (HalState.mk Phase.idle [] [] 0 0 Strength.strong)
          7 2).1 [Scan.good, Scan.noisy, Scan.good]).2).getLast? =
        some 0)) :=
  ⟨rfl, by decide,
    claim2_enroll_progress (HalState.mk Phase.idle [] [] 0 0 Strength.strong)
      7 2 [Scan.good, Scan.noisy, Scan.good] rfl (by decide)⟩

/-- Claim C9: cancel issued while the device is enrolling or authenticating
emits exactly the FINGERPRINT_ERROR_CANCELED error notification, changes
nothing but the phase — which becomes idle, the state every subsequent
command then operates on — and in particular leaves every outstanding
challenge valid. -/
theorem claim9_cancel_to_idle (s : HalState)
    (h : (∃ fid m, s.phase = Phase.enrolling fid m) ∨
      (∃ o, s.phase = Phase.authenticating o)) :
    (cancel s).1 = { s with phase := Phase.idle } ∧
    (cancel s).2 = [Notif.error FINGERPRINT_ERROR_CANCELED] ∧
    (cancel s).1.challenges = s.challenges ∧
    msgType (Notif.error FINGERPRINT_ERROR_CANCELED) = FINGERPRINT_ERROR := by
  have hc : cancel s = ({ s with phase := Phase.idle },
      [Notif.error FINGERPRINT_ERROR_CANCELED]) := by
    rcases h with ⟨fid, m, hp⟩ | ⟨o, hp⟩ <;> simp only [cancel, hp]
  exact ⟨by rw [hc], by rw [hc], by rw [hc], rfl⟩

/-- Witness for claim C9 at a concrete enrolling state with an outstanding
challenge. -/
theorem claim9_cancel_to_idle_witness :
    ((∃ fid m, (HalState.mk (Phase.enrolling 1 2) [] [9] 0 1
        Strength.strong).phase = Phase.enrolling fid m) ∨
      (∃ o, (HalState.mk (Phase.enrolling 1 2) [] [9] 0 1
        Strength.strong).phase = Phase.authenticating o)) ∧
    ((cancel (HalState.mk (Phase.enrolling 1 2) [] [9] 0 1
        Strength.strong)).1 =
      { HalState.mk (Phase.enrolling 1 2) [] [9] 0 1 Strength.strong with
          phase := Phase.idle } ∧
    (cancel (HalState.mk (Phase.enrolling 1 2) [] [9] 0 1
        Strength.strong)).2 =
      [Notif.error FINGERPRINT_ERROR_CANCELED] ∧
    (cancel (HalState.mk (Phase.enrolling 1 2) [] [9] 0 1
        Strength.strong)).1.challenges =
      (HalState.mk (Phase.enrolling 1 2) [] [9] 0 1
        Strength.strong).challenges ∧
    msgType (Notif.error FINGERPRINT_ERROR_CANCELED) = FINGERPRINT_ERROR) :=
  ⟨Or.inl ⟨1, 2, rfl⟩,
    claim9_cancel_to_idle
      (HalState.mk (Phase.enrolling 1 2) [] [9] 0 1 Strength.strong)
      (Or.inl ⟨1, 2, rfl⟩)⟩

/-- Appending one element never leaves a list unchanged. -/
theorem append_singleton_ne (l : List Nat) (a : Nat) : l ++ [a] ≠ l := by
  intro h
  have hlen := congrArg List.length h
  simp at hlen

/-- Equation for the first component of running one command then the rest. -/
theorem runCmds_cons_fst (s : HalState) (c : Cmd) (cs : List Cmd) :
    (runCmds s (c :: cs)).1 = (runCmds (step s c).1 cs).1 := rfl

/-- A step rotates the authenticator id exactly when it changes the template
set or is an invalidate_authenticator_id on a STRONG sensor. -/
def bumpsAuth (s : HalState) (c : Cmd) : Bool :=
  decide ((step s c).1.templates ≠ s.templates) ||
    (decide (c = Cmd.invalidate) && decide (s.strength = Strength.strong))

/-- Every step either rotates the authenticator id by one (exactly the
bumpsAuth steps) or leaves it alone. -/
theorem step_auth_cases (s : HalState) (c : Cmd) :
    (bumpsAuth s c = true ∧ (step s c).1.authIdCtr = s.authIdCtr + 1) ∨
    (bumpsAuth s c = false ∧ (step s c).1.authIdCtr = s.authIdCtr) := by
  cases c with
  | enroll fid n =>
      right
      cases hp : s.phase <;> cases n <;>
        simp [bumpsAuth, step, enroll, hp]
  | scan r =>
      cases hp : s.phase with
      | enrolling fid m =>
          cases r with
          | noisy => right; simp [bumpsAuth, step, scanStep, hp]
          | good =>
              match m with
              | 0 => right; simp [bumpsAuth, step, scanStep, hp]
              | 1 =>
                  left
                  refine ⟨?_, by simp [step, scanStep, hp]⟩
                  simp only [bumpsAuth, step, scanStep, hp, Bool.or_eq_true,
                    decide_eq_true_eq]
                  exact Or.inl (append_singleton_ne s.templates fid)
              | Nat.succ (Nat.succ j) =>
                  right; simp [bumpsAuth, step, scanStep, hp]
      | idle => right; cases r <;> simp [bumpsAuth, step, scanStep, hp]
      | authenticating o => right; cases r <;> simp [bumpsAuth, step, scanStep, hp]
  | cancel =>
      right
      cases hp : s.phase <;> simp [bumpsAuth, step, cancel, hp]
  | enumerate =>
      right
      cases ht : s.templates <;> simp [bumpsAuth, step, enumerate, ht]
  | remove fids =>
      cases ht : s.templates with
      | nil => right; simp [bumpsAuth, step, remove, ht]
      | cons f ts =>
          by_cases hk :
            (f :: ts).filter (fun x => decide (x ∉ fids)) = f :: ts
          · have hk' : f ∉ fids ∧ ∀ x ∈ ts, x ∉ fids := by
              have h1 := List.filter_eq_self.mp hk
              refine ⟨by simpa using h1 f (by simp), fun x hx => ?_⟩
              simpa using h1 x (by simp [hx])
            right
            constructor
            · simp [bumpsAuth, step, remove, ht]
              exact hk'
            · simp [step, remove, ht]
              exact hk'
          · have hk2 : ¬ (f ∉ fids ∧ ∀ x ∈ ts, x ∉ fids) := by
              intro hall
              refine hk (List.filter_eq_self.mpr fun a ha => ?_)
              rcases List.mem_cons.mp ha with rfl | ha'
              · simpa using hall.1
              · simpa using hall.2 a ha'
            left
            constructor
            · simp only [bumpsAuth, step, remove, ht, Bool.or_eq_true,
                decide_eq_true_eq]
              exact Or.inl hk
            · simp [step, remove, ht]
              intro hf
              by_contra hnone
              push_neg at hnone
              exact hk2 ⟨hf, hnone⟩
  | generateChallenge =>
      right; simp [bumpsAuth, step, generate_challenge]
  | revokeChallenge v =>
      right; simp [bumpsAuth, step, revoke_challenge]
  | invalidate =>
      cases hs : s.strength with
      | strong => left; simp [bumpsAuth, step, invalidate_authenticator_id, hs]
      | weak => right; simp [bumpsAuth, step, invalidate_authenticator_id, hs]
      | convenience =>
          right; simp [bumpsAuth, step, invalidate_authenticator_id, hs]
  | authenticate opId =>
      right
      cases hp : s.phase <;> simp [bumpsAuth, step, authenticate, hp]

/-- The authenticator id never decreases along a run. -/
theorem runCmds_auth_mono (cs : List Cmd) :
    ∀ s : HalState, s.authIdCtr ≤ (runCmds s cs).1.authIdCtr := by
  induction cs with
  | nil => intro s; exact Nat.le_refl _
  | cons c cs ih =>
      intro s
      have h2 := ih (step s c).1
      rw [runCmds_cons_fst]
      rcases step_auth_cases s c with ⟨_, he⟩ | ⟨_, he⟩ <;> omega

/-- Some step of the run, taken from its intermediate state, rotates the
authenticator id: it changes the template set or is an
invalidate_authenticator_id on a STRONG sensor. -/
def BumpAlong (s : HalState) : List Cmd → Prop
  | [] => False
  | c :: cs => bumpsAuth s c = true ∨ BumpAlong (step s c).1 cs

/-- Claim C6 counterexample: on a STRONG sensor, running just
invalidate_authenticator_id changes the value get_authenticator_id returns
while the enrolled template set is untouched, so the value does not change
only when the template set changes. -/
theorem claim6_counterexample :
    get_authenticator_id
      (runCmds (HalState.mk Phase.idle [] [] 0 0 Strength.strong)
        [Cmd.invalidate]).1 ≠
      get_authenticator_id (HalState.mk Phase.idle [] [] 0 0 Strength.strong) ∧
    (runCmds (HalState.mk Phase.idle [] [] 0 0 Strength.strong)
        [Cmd.invalidate]).1.templates =
      (HalState.mk Phase.idle [] [] 0 0 Strength.strong).templates := by
  decide

/-- Claim C6 (amended): between two calls, the value returned by
get_authenticator_id changes if and only if some command in between changed
the enrolled template set (an addition or a removal) or was an
invalidate_authenticator_id on a STRONG sensor; it is stable across calls
otherwise. -/
theorem claim6_authid_change_iff (s : HalState) (cs : List Cmd) :
    get_authenticator_id (runCmds s cs).1 ≠ get_authenticator_id s ↔
      BumpAlong s cs := by
  induction cs generalizing s with
  | nil => simp [runCmds, BumpAlong]
  | cons c cs ih =>
      rw [show get_authenticator_id (runCmds s (c :: cs)).1 =
        get_authenticator_id (runCmds (step s c).1 cs).1 from
          congrArg get_authenticator_id (runCmds_cons_fst s c cs)]
      rcases step_auth_cases s c with ⟨hb, he⟩ | ⟨hb, he⟩
      · have hm := runCmds_auth_mono cs (step s c).1
        constructor
        · intro _
          exact Or.inl hb
        · intro _
          simp only [get_authenticator_id]
          omega
      · have hiff := ih (step s c).1
        constructor
        · intro hne
          refine Or.inr (hiff.mp ?_)
          simp only [get_authenticator_id] at hne ⊢
          omega
        · rintro (hb' | hbal)
          · rw [hb] at hb'
            exact absurd hb' (by simp)
          · have hne := hiff.mpr hbal
            simp only [get_authenticator_id] at hne ⊢
            omega

end Fingerprint
